import Mathlib

/-!
Verification of the `LandmarksToKalidokitDataCalculator` of the mediapipe
fork, against its natural-language specification.

The embedding follows the final revision of
`mediapipe/calculators/util/landmarks_to_kalidokit_data_calculator.cc`
(the revision whose `Process` reads the `FACE_LANDMARKS` input stream and
emits a `KalidokitData` packet on the `KALIDOKIT_DATA` stream).  That
`Process`:

* returns `OkStatus` and emits nothing when the input packet is empty;
* otherwise builds a `KalidokitData` whose `HeadData` is a fixed record —
  degrees = (0.5, 0.4, 0.3), x/y/z = (0.8, 0.7, 0.6), width = 100,
  height = 200 — independent of every landmark coordinate, and emits it
  at the input timestamp, returning `OkStatus`.

Protobuf float fields are embedded as rationals: every constant written by
the code (0.5, 0.4, 0.3, 0.8, 0.7, 0.6, 100, 200) is exactly representable
in binary floating point, so exact arithmetic is faithful here.

The specification additionally describes a geometric head-pose pipeline
(reference-point selection, orthonormal basis, asin/atan2 angle extraction,
angle wrapping).  Those definitions are embedded over the reals, each
clearly marked as following the specification text, so that the code's
behaviour can be compared against them.
-/

namespace Kalidokit

/-- A landmark of mediapipe's `NormalizedLandmark` proto message: a 3-D
point with float coordinates, embedded as rationals. -/
structure NormalizedLandmark where
  x : ℚ
  y : ℚ
  z : ℚ
deriving DecidableEq, Repr

instance : Inhabited NormalizedLandmark := ⟨⟨0, 0, 0⟩⟩

/-- Mediapipe's `NormalizedLandmarkList` proto message: an ordered sequence
of landmarks. -/
abbrev NormalizedLandmarkList := List NormalizedLandmark

/-- The `HeadData.Degrees` proto sub-message: the three per-axis degree
values written by `set_x` / `set_y` / `set_z`. -/
structure HeadDataDegrees where
  x : ℚ
  y : ℚ
  z : ℚ
deriving DecidableEq, Repr

/-- The `HeadData` proto message as populated by the calculator: a
`degrees` sub-message plus the scalar fields `x`, `y`, `z`, `width`,
`height`. -/
structure HeadData where
  degrees : HeadDataDegrees
  x : ℚ
  y : ℚ
  z : ℚ
  width : ℚ
  height : ℚ
deriving DecidableEq, Repr

/-- The `KalidokitData` proto message: holds the `head_data` sub-message. -/
structure KalidokitData where
  head_data : HeadData
deriving DecidableEq, Repr

/-- Status of one `Process` call.  The calculator returns an
`absl::Status`; `ok` embeds `absl::OkStatus()`.  The two error values
embed the error taxonomy of the specification (`InsufficientLandmarksError`,
`DegenerateGeometryError`), so that "never raises this error" is statable;
the code's `Process` only ever returns `ok`. -/
inductive Status where
  | ok
  | insufficientLandmarks
  | degenerateGeometry
deriving DecidableEq, Repr

/-- The observable outcome of one `Process` call: the packets emitted on
the `KALIDOKIT_DATA` stream (each a timestamp paired with the payload)
together with the returned status. -/
structure ProcessResult where
  emissions : List (ℕ × KalidokitData)
  status : Status
deriving DecidableEq, Repr

/-- The fixed `HeadData` record built by `Process` (lines 164-181 of the
calculator): degrees (0.5, 0.4, 0.3) via `set_x`/`set_y`/`set_z` on the
`Degrees` sub-message, then `set_x(0.8)`, `set_y(0.7)`, `set_z(0.6)`,
`set_width(100)`, `set_height(200)`. -/
def fixedHeadData : HeadData :=
  { degrees := ⟨0.5, 0.4, 0.3⟩
    x := 0.8
    y := 0.7
    z := 0.6
    width := 100
    height := 200 }

/-- The fixed `KalidokitData` payload emitted by `Process`: the fixed
`HeadData` installed via `set_allocated_head_data`. -/
def fixedKalidokitData : KalidokitData := ⟨fixedHeadData⟩

/-- LandmarksToKalidokitDataCalculator::Process (final revision, lines
147-187).  The input is `none` when the `FACE_LANDMARKS` input packet is
empty at this timestamp — in that case `Process` returns `OkStatus` and
emits nothing — and `some lm` when a landmark list `lm` is present, in
which case `Process` emits the fixed `KalidokitData` at the input
timestamp `ts` and returns `OkStatus`.  The landmark list itself is read
but no field of the output depends on it. -/
def Process (ts : ℕ) (input : Option NormalizedLandmarkList) : ProcessResult :=
  match input with
  | none => ⟨[], Status.ok⟩
  | some _ => ⟨[(ts, fixedKalidokitData)], Status.ok⟩

/-- One framework step of the calculator.  The calculator class declares
no member variables (its state type is trivial), so a step carries the
(trivial) state through unchanged and produces the `Process` outcome of
the call. -/
def ProcessStep (s : Unit) (call : ℕ × Option NormalizedLandmarkList) :
    Unit × ProcessResult :=
  (s, Process call.1 call.2)

/-- Running the calculator over a sequence of calls, threading the
(trivial) calculator state through the framework steps. -/
def RunCalculator : Unit → List (ℕ × Option NormalizedLandmarkList) → List ProcessResult
  | _, [] => []
  | s, c :: cs =>
    let step := ProcessStep s c
    step.2 :: RunCalculator step.1 cs

/-- A landmark list of length 398 holding the four reference points of the
specification at indices 21, 251, 397, 172 and the origin elsewhere; used
to build concrete inputs. -/
def mkLandmarks (p1 p2 p3 p4 : NormalizedLandmark) : NormalizedLandmarkList :=
  (List.range 398).map fun i =>
    if i = 21 then p1
    else if i = 251 then p2
    else if i = 397 then p3
    else if i = 172 then p4
    else ⟨0, 0, 0⟩

theorem mkLandmarks_length (p1 p2 p3 p4 : NormalizedLandmark) :
    (mkLandmarks p1 p2 p3 p4).length = 398 := by
  simp [mkLandmarks]

theorem mkLandmarks_getD (p1 p2 p3 p4 d : NormalizedLandmark) (i : ℕ)
    (h : i < 398) :
    (mkLandmarks p1 p2 p3 p4).getD i d =
      (if i = 21 then p1
       else if i = 251 then p2
       else if i = 397 then p3
       else if i = 172 then p4
       else ⟨0, 0, 0⟩) := by
  simp [mkLandmarks, List.getD_eq_getElem?_getD, List.getElem?_map,
    List.getElem?_range h]

/-- A 3-D vector over the reals, for the geometric quantities of the
specification. -/
structure Vec3 where
  x : ℝ
  y : ℝ
  z : ℝ

/-- Componentwise vector addition. -/
def Vec3.add (a b : Vec3) : Vec3 := ⟨a.x + b.x, a.y + b.y, a.z + b.z⟩

/-- Componentwise vector subtraction. -/
def Vec3.sub (a b : Vec3) : Vec3 := ⟨a.x - b.x, a.y - b.y, a.z - b.z⟩

/-- Scalar multiple of a vector. -/
def Vec3.smul (c : ℝ) (v : Vec3) : Vec3 := ⟨c * v.x, c * v.y, c * v.z⟩

/-- The cross product of two 3-D vectors. -/
def Vec3.cross (a b : Vec3) : Vec3 :=
  ⟨a.y * b.z - a.z * b.y, a.z * b.x - a.x * b.z, a.x * b.y - a.y * b.x⟩

/-- The Euclidean norm of a 3-D vector. -/
noncomputable def Vec3.norm (v : Vec3) : ℝ :=
  Real.sqrt (v.x ^ 2 + v.y ^ 2 + v.z ^ 2)

/-- Normalization of a vector to unit length, `v / ‖v‖`, as used by the
specification's basis construction. -/
noncomputable def Vec3.normalizeV (v : Vec3) : Vec3 :=
  Vec3.smul (1 / Vec3.norm v) v

/-- The two-argument arctangent `atan2 y x` of the C library, as invoked
by the specification's angle-extraction formulas. -/
noncomputable def atan2 (y x : ℝ) : ℝ :=
  if 0 < x then Real.arctan (y / x)
  else if x < 0 then
    (if 0 ≤ y then Real.arctan (y / x) + Real.pi
     else Real.arctan (y / x) - Real.pi)
  else
    (if 0 < y then Real.pi / 2
     else if y < 0 then -(Real.pi / 2)
     else 0)

/-- Modelled from the spec: the angle-wrap step of §4 step 4 of the
specification (the geometric revision of the calculator is not present in
the repository snapshot, so the wrap function is modelled from the
specification's words): reduce the angle modulo 2π; if the result exceeds
+π subtract 2π; if it is less than −π add 2π; otherwise leave it
unchanged. -/
noncomputable def wrapStep (a : ℝ) : ℝ :=
  let r := a - 2 * Real.pi * ⌊a / (2 * Real.pi)⌋
  if Real.pi < r then r - 2 * Real.pi
  else if r < -Real.pi then r + 2 * Real.pi
  else r

/-- Modelled from the spec: the full angle normalization of §4 step 4 —
the wrap step followed by division by π, so the output lies in [-1, 1]. -/
noncomputable def wrapNorm (a : ℝ) : ℝ := wrapStep a / Real.pi

/-- Casts a landmark's rational coordinates into a real vector. -/
def toVec (l : NormalizedLandmark) : Vec3 := ⟨(l.x : ℝ), (l.y : ℝ), (l.z : ℝ)⟩

/-- Reference point p1 of the specification: landmark index 21. -/
def specP1 (lm : NormalizedLandmarkList) : Vec3 := toVec (lm.getD 21 default)

/-- Reference point p2 of the specification: landmark index 251. -/
def specP2 (lm : NormalizedLandmarkList) : Vec3 := toVec (lm.getD 251 default)

/-- Reference point p3 of the specification: landmark index 397. -/
def specP3 (lm : NormalizedLandmarkList) : Vec3 := toVec (lm.getD 397 default)

/-- Reference point p4 of the specification: landmark index 172. -/
def specP4 (lm : NormalizedLandmarkList) : Vec3 := toVec (lm.getD 172 default)

/-- The specification's p3mid = (p3 + p4) / 2. -/
noncomputable def specP3mid (lm : NormalizedLandmarkList) : Vec3 :=
  Vec3.smul (1 / 2) (Vec3.add (specP3 lm) (specP4 lm))

/-- The specification's edge vector qb = b - a with a = p1, b = p2. -/
def specQb (lm : NormalizedLandmarkList) : Vec3 :=
  Vec3.sub (specP2 lm) (specP1 lm)

/-- The specification's edge vector qc = c - a with c = p3mid, a = p1. -/
noncomputable def specQc (lm : NormalizedLandmarkList) : Vec3 :=
  Vec3.sub (specP3mid lm) (specP1 lm)

/-- The specification's plane normal n = qb × qc. -/
noncomputable def specN (lm : NormalizedLandmarkList) : Vec3 :=
  Vec3.cross (specQb lm) (specQc lm)

/-- The specification's unitZ = normalize(n). -/
noncomputable def specUnitZ (lm : NormalizedLandmarkList) : Vec3 :=
  Vec3.normalizeV (specN lm)

/-- The specification's unitX = normalize(qb). -/
noncomputable def specUnitX (lm : NormalizedLandmarkList) : Vec3 :=
  Vec3.normalizeV (specQb lm)

/-- The specification's unitY = unitZ × unitX. -/
noncomputable def specUnitY (lm : NormalizedLandmarkList) : Vec3 :=
  Vec3.cross (specUnitZ lm) (specUnitX lm)

/-- The specification's beta = asin(unitZ.x). -/
noncomputable def specBeta (lm : NormalizedLandmarkList) : ℝ :=
  Real.arcsin (specUnitZ lm).x

/-- The specification's alpha = atan2(-unitZ.y, unitZ.z). -/
noncomputable def specAlpha (lm : NormalizedLandmarkList) : ℝ :=
  atan2 (-(specUnitZ lm).y) (specUnitZ lm).z

/-- The specification's gamma = atan2(-unitY.x, unitX.x), following the
best-supported reading of §9 of the specification. -/
noncomputable def specGamma (lm : NormalizedLandmarkList) : ℝ :=
  atan2 (-(specUnitY lm).x) (specUnitX lm).x

/-- The specification's normalized rotation vector: each angle passes
through the wrap-and-divide-by-π normalization, then the x and z
components are negated (axis-sign convention, §4 step 5) while the
yaw-like y component keeps its sign. -/
noncomputable def specNormalizedRot (lm : NormalizedLandmarkList) : Vec3 :=
  ⟨-(wrapNorm (specBeta lm)), wrapNorm (specGamma lm), -(wrapNorm (specAlpha lm))⟩

/-- The specification's degrees output: the normalized rotation vector
scaled by 180. -/
noncomputable def specDegreesVec (lm : NormalizedLandmarkList) : Vec3 :=
  Vec3.smul 180 (specNormalizedRot lm)

/-- The specification's midPoint = (p1 + p2) / 2. -/
noncomputable def specMidPoint (lm : NormalizedLandmarkList) : Vec3 :=
  Vec3.smul (1 / 2) (Vec3.add (specP1 lm) (specP2 lm))

/-- The specification's width = ‖p1 - p2‖. -/
noncomputable def specWidth (lm : NormalizedLandmarkList) : ℝ :=
  Vec3.norm (Vec3.sub (specP1 lm) (specP2 lm))

/-- The specification's height = ‖midPoint - p3mid‖. -/
noncomputable def specHeight (lm : NormalizedLandmarkList) : ℝ :=
  Vec3.norm (Vec3.sub (specMidPoint lm) (specP3mid lm))

/-- The scale-scenario input of the specification: p1 = (0,0,0),
p2 = (2,0,0), p3 = p4 = (1,1,0), so p3mid = (1,1,0). -/
def lmScale : NormalizedLandmarkList :=
  mkLandmarks ⟨0, 0, 0⟩ ⟨2, 0, 0⟩ ⟨1, 1, 0⟩ ⟨1, 1, 0⟩

/-- The frontal-face input of the specification's concrete scenario:
p1 = (0,0,0), p2 = (1,0,0), p3 = p4 = (1/2,1,0), so p3mid = (1/2,1,0). -/
def lmFrontal : NormalizedLandmarkList :=
  mkLandmarks ⟨0, 0, 0⟩ ⟨1, 0, 0⟩ ⟨1/2, 1, 0⟩ ⟨1/2, 1, 0⟩

/-- A degenerate input: all four reference landmarks set to the identical
point (1/2, 1/2, 0). -/
def lmDegenerate : NormalizedLandmarkList :=
  mkLandmarks ⟨1/2, 1/2, 0⟩ ⟨1/2, 1/2, 0⟩ ⟨1/2, 1/2, 0⟩ ⟨1/2, 1/2, 0⟩

/-- A landmark list of length 10, the short-input scenario of the
specification. -/
def lmTen : NormalizedLandmarkList := List.replicate 10 ⟨0, 0, 0⟩

theorem atan2_zero_one : atan2 0 1 = 0 := by
  rw [atan2, if_pos one_pos]
  norm_num [Real.arctan_zero]

theorem wrapStep_id (a : ℝ) (h1 : -Real.pi < a) (h2 : a ≤ Real.pi) :
    wrapStep a = a := by
  have hpi : (0 : ℝ) < Real.pi := Real.pi_pos
  have h2pi : (0 : ℝ) < 2 * Real.pi := by linarith
  rcases le_or_lt 0 a with ha | ha
  · have hfloor : ⌊a / (2 * Real.pi)⌋ = 0 := by
      rw [Int.floor_eq_zero_iff, Set.mem_Ico]
      exact ⟨div_nonneg ha h2pi.le, by rw [div_lt_one h2pi]; linarith⟩
    simp only [wrapStep, hfloor, Int.cast_zero, mul_zero, sub_zero]
    rw [if_neg (by linarith), if_neg (by linarith)]
  · have hfloor : ⌊a / (2 * Real.pi)⌋ = -1 := by
      rw [Int.floor_eq_iff]
      constructor
      · push_cast
        rw [le_div_iff₀ h2pi]
        linarith
      · have hlt : a / (2 * Real.pi) < 0 := div_neg_of_neg_of_pos ha h2pi
        push_cast
        linarith
    simp only [wrapStep, hfloor, Int.cast_neg, Int.cast_one, mul_neg, mul_one,
      sub_neg_eq_add]
    rw [if_pos (by linarith)]
    ring

theorem wrapStep_zero : wrapStep 0 = 0 :=
  wrapStep_id 0 (neg_lt_zero.mpr Real.pi_pos) Real.pi_pos.le

theorem wrapNorm_zero : wrapNorm 0 = 0 := by
  rw [wrapNorm, wrapStep_zero, zero_div]

theorem lmScale_p1 : specP1 lmScale = ⟨0, 0, 0⟩ := by
  rw [specP1, lmScale, mkLandmarks_getD _ _ _ _ _ 21 (by norm_num)]
  norm_num [toVec]

theorem lmScale_p2 : specP2 lmScale = ⟨2, 0, 0⟩ := by
  rw [specP2, lmScale, mkLandmarks_getD _ _ _ _ _ 251 (by norm_num)]
  norm_num [toVec]

theorem lmScale_p3mid : specP3mid lmScale = ⟨1, 1, 0⟩ := by
  rw [specP3mid, specP3, specP4, lmScale,
    mkLandmarks_getD _ _ _ _ _ 397 (by norm_num),
    mkLandmarks_getD _ _ _ _ _ 172 (by norm_num)]
  norm_num [toVec, Vec3.add, Vec3.smul]

theorem lmScale_width : specWidth lmScale = 2 := by
  rw [specWidth, lmScale_p1, lmScale_p2]
  have h4 : Real.sqrt 4 = 2 := by
    rw [show (4 : ℝ) = 2 ^ 2 by norm_num]
    exact Real.sqrt_sq (by norm_num)
  simp only [Vec3.sub, Vec3.norm]
  norm_num [h4]

theorem lmScale_height : specHeight lmScale = 1 := by
  have hmid : specMidPoint lmScale = ⟨1, 0, 0⟩ := by
    rw [specMidPoint, lmScale_p1, lmScale_p2]
    norm_num [Vec3.add, Vec3.smul]
  rw [specHeight, hmid, lmScale_p3mid]
  simp only [Vec3.sub, Vec3.norm]
  norm_num [Real.sqrt_one]

theorem lmDegenerate_qb : specQb lmDegenerate = ⟨0, 0, 0⟩ := by
  rw [specQb, specP1, specP2, lmDegenerate,
    mkLandmarks_getD _ _ _ _ _ 21 (by norm_num),
    mkLandmarks_getD _ _ _ _ _ 251 (by norm_num)]
  norm_num [toVec, Vec3.sub]

theorem lmDegenerate_coincident :
    lmDegenerate.getD 21 default = lmDegenerate.getD 251 default ∧
    lmDegenerate.getD 251 default = lmDegenerate.getD 397 default ∧
    lmDegenerate.getD 397 default = lmDegenerate.getD 172 default := by
  rw [lmDegenerate,
    mkLandmarks_getD _ _ _ _ _ 21 (by norm_num),
    mkLandmarks_getD _ _ _ _ _ 251 (by norm_num),
    mkLandmarks_getD _ _ _ _ _ 397 (by norm_num),
    mkLandmarks_getD _ _ _ _ _ 172 (by norm_num)]
  norm_num

theorem lmFrontal_spec_degrees : specDegreesVec lmFrontal = ⟨0, 0, 0⟩ := by
  have hp1 : specP1 lmFrontal = ⟨0, 0, 0⟩ := by
    rw [specP1, lmFrontal, mkLandmarks_getD _ _ _ _ _ 21 (by norm_num)]
    norm_num [toVec]
  have hp2 : specP2 lmFrontal = ⟨1, 0, 0⟩ := by
    rw [specP2, lmFrontal, mkLandmarks_getD _ _ _ _ _ 251 (by norm_num)]
    norm_num [toVec]
  have hp3mid : specP3mid lmFrontal = ⟨1/2, 1, 0⟩ := by
    rw [specP3mid, specP3, specP4, lmFrontal,
      mkLandmarks_getD _ _ _ _ _ 397 (by norm_num),
      mkLandmarks_getD _ _ _ _ _ 172 (by norm_num)]
    norm_num [toVec, Vec3.add, Vec3.smul]
  have hqb : specQb lmFrontal = ⟨1, 0, 0⟩ := by
    rw [specQb, hp2, hp1]; norm_num [Vec3.sub]
  have hqc : specQc lmFrontal = ⟨1/2, 1, 0⟩ := by
    rw [specQc, hp3mid, hp1]; norm_num [Vec3.sub]
  have hn : specN lmFrontal = ⟨0, 0, 1⟩ := by
    rw [specN, hqb, hqc]; norm_num [Vec3.cross]
  have hnorm001 : Vec3.norm ⟨0, 0, 1⟩ = 1 := by
    simp only [Vec3.norm]
    norm_num [Real.sqrt_one]
  have hnorm100 : Vec3.norm ⟨1, 0, 0⟩ = 1 := by
    simp only [Vec3.norm]
    norm_num [Real.sqrt_one]
  have hunitZ : specUnitZ lmFrontal = ⟨0, 0, 1⟩ := by
    rw [specUnitZ, hn, Vec3.normalizeV, hnorm001]
    norm_num [Vec3.smul]
  have hunitX : specUnitX lmFrontal = ⟨1, 0, 0⟩ := by
    rw [specUnitX, hqb, Vec3.normalizeV, hnorm100]
    norm_num [Vec3.smul]
  have hunitY : specUnitY lmFrontal = ⟨0, 1, 0⟩ := by
    rw [specUnitY, hunitZ, hunitX]; norm_num [Vec3.cross]
  have hbeta : specBeta lmFrontal = 0 := by
    rw [specBeta, hunitZ]
    simp
  have halpha : specAlpha lmFrontal = 0 := by
    rw [specAlpha, hunitZ]
    simpa using atan2_zero_one
  have hgamma : specGamma lmFrontal = 0 := by
    rw [specGamma, hunitY, hunitX]
    simpa using atan2_zero_one
  rw [specDegreesVec, specNormalizedRot, hbeta, halpha, hgamma, wrapNorm_zero]
  norm_num [Vec3.smul]

/-- C1: the claim that the emitted width equals ‖p1 - p2‖ and the emitted
height equals ‖midPoint - p3mid‖ is false on the code: at the
specification's own scale scenario (p1 = (0,0,0), p2 = (2,0,0),
p3mid = (1,1,0)), where ‖p1 - p2‖ = 2 and ‖midPoint - p3mid‖ = 1, the
calculator emits width 100 and height 200. -/
theorem C1_counterexample :
    (Process 0 (some lmScale)).emissions = [(0, fixedKalidokitData)] ∧
    specWidth lmScale = 2 ∧ specHeight lmScale = 1 ∧
    fixedKalidokitData.head_data.width = 100 ∧
    fixedKalidokitData.head_data.height = 200 ∧
    ((fixedKalidokitData.head_data.width : ℝ) ≠ specWidth lmScale) ∧
    ((fixedKalidokitData.head_data.height : ℝ) ≠ specHeight lmScale) := by
  refine ⟨rfl, lmScale_width, lmScale_height, rfl, rfl, ?_, ?_⟩
  · rw [lmScale_width]
    norm_num [fixedKalidokitData, fixedHeadData]
  · rw [lmScale_height]
    norm_num [fixedKalidokitData, fixedHeadData]

/-- C1 (amended): for every landmark set the emitted result's width is the
constant 100 and its height the constant 200, independent of every
landmark coordinate. -/
theorem C1_constant_size (ts : ℕ) (lm : NormalizedLandmarkList) :
    (Process ts (some lm)).emissions = [(ts, fixedKalidokitData)] ∧
    fixedKalidokitData.head_data.width = 100 ∧
    fixedKalidokitData.head_data.height = 200 :=
  ⟨rfl, rfl, rfl⟩

/-- C2: the claim that the emitted rotation angles are obtained from the
orthonormal basis via asin/atan2 is false on the code: at the frontal-face
input every specification angle is 0 (so the specification's degrees
vector is (0,0,0)), yet the calculator emits degrees (0.5, 0.4, 0.3). -/
theorem C2_counterexample :
    (Process 0 (some lmFrontal)).emissions = [(0, fixedKalidokitData)] ∧
    specDegreesVec lmFrontal = ⟨0, 0, 0⟩ ∧
    fixedKalidokitData.head_data.degrees = ⟨0.5, 0.4, 0.3⟩ ∧
    (⟨(fixedKalidokitData.head_data.degrees.x : ℝ),
      (fixedKalidokitData.head_data.degrees.y : ℝ),
      (fixedKalidokitData.head_data.degrees.z : ℝ)⟩ : Vec3) ≠
        specDegreesVec lmFrontal := by
  refine ⟨rfl, lmFrontal_spec_degrees, rfl, ?_⟩
  rw [lmFrontal_spec_degrees]
  intro h
  have hx := congrArg Vec3.x h
  norm_num [fixedKalidokitData, fixedHeadData] at hx

/-- C2 (amended): the emitted angle values are the constants
degrees = (0.5, 0.4, 0.3), independent of the landmark geometry — they are
not derived from any basis built on the landmarks. -/
theorem C2_constant_angles (ts : ℕ) (lm : NormalizedLandmarkList) :
    (Process ts (some lm)).emissions = [(ts, fixedKalidokitData)] ∧
    fixedKalidokitData.head_data.degrees = ⟨0.5, 0.4, 0.3⟩ ∧
    ∀ lm' : NormalizedLandmarkList,
      (Process ts (some lm)).emissions = (Process ts (some lm')).emissions :=
  ⟨rfl, rfl, fun _ => rfl⟩

/-- C3: the claim that a landmark set of length 10 raises
InsufficientLandmarksError and produces no result is false on the code:
the calculator returns ok and emits the fixed result for the length-10
input. -/
theorem C3_counterexample :
    lmTen.length = 10 ∧
    (Process 0 (some lmTen)).status = Status.ok ∧
    (Process 0 (some lmTen)).status ≠ Status.insufficientLandmarks ∧
    (Process 0 (some lmTen)).emissions = [(0, fixedKalidokitData)] := by
  refine ⟨by norm_num [lmTen], rfl, by simp [Process], rfl⟩

/-- C3 (amended): the calculator never raises InsufficientLandmarksError:
for every landmark list too short to index the four reference points
(length < 398), Process still succeeds and emits the fixed result. -/
theorem C3_no_length_error (ts : ℕ) (lm : NormalizedLandmarkList)
    (_h : lm.length < 398) :
    Process ts (some lm) = ⟨[(ts, fixedKalidokitData)], Status.ok⟩ ∧
    (Process ts (some lm)).status ≠ Status.insufficientLandmarks :=
  ⟨rfl, by simp [Process]⟩

/-- C3 witness: the amended theorem applied to the concrete length-10
input. -/
theorem C3_no_length_error_witness :
    lmTen.length < 398 ∧
    Process 0 (some lmTen) = ⟨[(0, fixedKalidokitData)], Status.ok⟩ :=
  ⟨by norm_num [lmTen], (C3_no_length_error 0 lmTen (by norm_num [lmTen])).1⟩

/-- C4: the claim that coincident reference points raise
DegenerateGeometryError with nothing emitted is false on the code: with
all four reference landmarks set to the identical point (so qb = 0 and the
normal degenerates), the calculator returns ok and emits the fixed
result. -/
theorem C4_counterexample :
    specQb lmDegenerate = ⟨0, 0, 0⟩ ∧
    (lmDegenerate.getD 21 default = lmDegenerate.getD 251 default ∧
     lmDegenerate.getD 251 default = lmDegenerate.getD 397 default ∧
     lmDegenerate.getD 397 default = lmDegenerate.getD 172 default) ∧
    (Process 0 (some lmDegenerate)).status = Status.ok ∧
    (Process 0 (some lmDegenerate)).status ≠ Status.degenerateGeometry ∧
    (Process 0 (some lmDegenerate)).emissions = [(0, fixedKalidokitData)] :=
  ⟨lmDegenerate_qb, lmDegenerate_coincident, rfl, by simp [Process], rfl⟩

/-- C4 (amended): the calculator never raises DegenerateGeometryError:
even when the reference points are degenerate (the edge vector qb is the
zero vector), Process succeeds and emits the fixed result. -/
theorem C4_no_degenerate_error (ts : ℕ) (lm : NormalizedLandmarkList)
    (_h : specQb lm = ⟨0, 0, 0⟩) :
    Process ts (some lm) = ⟨[(ts, fixedKalidokitData)], Status.ok⟩ ∧
    (Process ts (some lm)).status ≠ Status.degenerateGeometry :=
  ⟨rfl, by simp [Process]⟩

/-- C4 witness: the amended theorem applied to the concrete input whose
four reference landmarks coincide. -/
theorem C4_no_degenerate_error_witness :
    specQb lmDegenerate = ⟨0, 0, 0⟩ ∧
    Process 0 (some lmDegenerate) = ⟨[(0, fixedKalidokitData)], Status.ok⟩ :=
  ⟨lmDegenerate_qb, (C4_no_degenerate_error 0 lmDegenerate lmDegenerate_qb).1⟩

/-- C5: for every non-empty input landmark list, regardless of the
landmark coordinates and of the list's length, the calculator emits the
same fixed head record — degrees (0.5, 0.4, 0.3), x/y/z (0.8, 0.7, 0.6),
width 100, height 200 — and the outcome does not depend on any landmark
value. -/
theorem C5_fixed_output (ts : ℕ) (lm : NormalizedLandmarkList)
    (_h : lm ≠ []) :
    Process ts (some lm) =
      ⟨[(ts, ⟨⟨⟨0.5, 0.4, 0.3⟩, 0.8, 0.7, 0.6, 100, 200⟩⟩)], Status.ok⟩ ∧
    ∀ lm' : NormalizedLandmarkList,
      Process ts (some lm) = Process ts (some lm') :=
  ⟨rfl, fun _ => rfl⟩

/-- C5 witness: the theorem applied to a concrete non-empty landmark
list. -/
theorem C5_fixed_output_witness :
    ([⟨0, 0, 0⟩] : NormalizedLandmarkList) ≠ [] ∧
    Process 0 (some [⟨0, 0, 0⟩]) =
      ⟨[(0, ⟨⟨⟨0.5, 0.4, 0.3⟩, 0.8, 0.7, 0.6, 100, 200⟩⟩)], Status.ok⟩ :=
  ⟨by simp, (C5_fixed_output 0 [⟨0, 0, 0⟩] (by simp)).1⟩

/-- C6: the claim that the emitted angle representations are mutually
consistent (degrees = normalized × 180) is false on the code: the emitted
degrees.x is 0.5 while the emitted normalized x value is 0.8, and
0.5 ≠ 0.8 × 180. -/
theorem C6_counterexample :
    (Process 0 (some [⟨0, 0, 0⟩])).emissions = [(0, fixedKalidokitData)] ∧
    fixedKalidokitData.head_data.degrees.x = 0.5 ∧
    fixedKalidokitData.head_data.x = 0.8 ∧
    fixedKalidokitData.head_data.degrees.x ≠
      fixedKalidokitData.head_data.x * 180 := by
  refine ⟨rfl, rfl, rfl, ?_⟩
  norm_num [fixedKalidokitData, fixedHeadData]

/-- C6 (amended): the emitted degrees field is the constant
(0.5, 0.4, 0.3) and the emitted x/y/z field the constant (0.8, 0.7, 0.6);
on no axis does degrees equal the x/y/z value scaled by 180, and no third
(radians) representation is emitted. -/
theorem C6_representations (ts : ℕ) (lm : NormalizedLandmarkList) :
    (Process ts (some lm)).emissions = [(ts, fixedKalidokitData)] ∧
    fixedKalidokitData.head_data.degrees = ⟨0.5, 0.4, 0.3⟩ ∧
    fixedKalidokitData.head_data.x = 0.8 ∧
    fixedKalidokitData.head_data.y = 0.7 ∧
    fixedKalidokitData.head_data.z = 0.6 ∧
    fixedKalidokitData.head_data.degrees.x ≠
      fixedKalidokitData.head_data.x * 180 ∧
    fixedKalidokitData.head_data.degrees.y ≠
      fixedKalidokitData.head_data.y * 180 ∧
    fixedKalidokitData.head_data.degrees.z ≠
      fixedKalidokitData.head_data.z * 180 := by
  refine ⟨rfl, rfl, rfl, rfl, rfl, ?_, ?_, ?_⟩ <;>
    norm_num [fixedKalidokitData, fixedHeadData]

/-- C7: every component of the emitted normalized rotation vector (the
head data's x, y, z fields) lies in (-1, 1], for every emission of every
call. -/
theorem C7_normalized_range (ts : ℕ) (lm : NormalizedLandmarkList)
    (p : ℕ × KalidokitData) (hp : p ∈ (Process ts (some lm)).emissions) :
    (-1 < p.2.head_data.x ∧ p.2.head_data.x ≤ 1) ∧
    (-1 < p.2.head_data.y ∧ p.2.head_data.y ≤ 1) ∧
    (-1 < p.2.head_data.z ∧ p.2.head_data.z ≤ 1) := by
  have hp' : p = (ts, fixedKalidokitData) := by
    simpa [Process] using hp
  subst hp'
  norm_num [fixedKalidokitData, fixedHeadData]

/-- C7 witness: the range theorem applied to the concrete emission of a
concrete call. -/
theorem C7_normalized_range_witness :
    ((0, fixedKalidokitData) ∈ (Process 0 (some [⟨0, 0, 0⟩])).emissions) ∧
    ((-1 < fixedKalidokitData.head_data.x ∧
      fixedKalidokitData.head_data.x ≤ 1) ∧
     (-1 < fixedKalidokitData.head_data.y ∧
      fixedKalidokitData.head_data.y ≤ 1) ∧
     (-1 < fixedKalidokitData.head_data.z ∧
      fixedKalidokitData.head_data.z ≤ 1)) :=
  ⟨by simp [Process],
   C7_normalized_range 0 [⟨0, 0, 0⟩] (0, fixedKalidokitData) (by simp [Process])⟩

/-- C8: the wrap function is the identity on angles already in (-π, π]
before the division by π, and the normalized value is then the angle
divided by π. -/
theorem C8_wrap_identity (a : ℝ) (h1 : -Real.pi < a) (h2 : a ≤ Real.pi) :
    wrapStep a = a ∧ wrapNorm a = a / Real.pi :=
  ⟨wrapStep_id a h1 h2, by rw [wrapNorm, wrapStep_id a h1 h2]⟩

/-- C8 witness: the wrap-identity theorem applied to the angle 0, which
lies in (-π, π]. -/
theorem C8_wrap_identity_witness :
    (-Real.pi < 0 ∧ (0 : ℝ) ≤ Real.pi) ∧
    (wrapStep 0 = 0 ∧ wrapNorm 0 = 0 / Real.pi) :=
  ⟨⟨neg_lt_zero.mpr Real.pi_pos, Real.pi_pos.le⟩,
   C8_wrap_identity 0 (neg_lt_zero.mpr Real.pi_pos) Real.pi_pos.le⟩

theorem runCalculator_eq_map (s : Unit)
    (calls : List (ℕ × Option NormalizedLandmarkList)) :
    RunCalculator s calls = calls.map fun c => Process c.1 c.2 := by
  induction calls with
  | nil => rfl
  | cons c cs ih => simp [RunCalculator, ProcessStep, ih]

/-- C9: the calculator is deterministic and stateless: running any
sequence of calls produces, for each call, exactly the outcome of that
call's own input — no outcome depends on earlier calls or on the initial
state, and repeated calls on the same input yield identical results. -/
theorem C9_deterministic_stateless (s s' : Unit)
    (calls : List (ℕ × Option NormalizedLandmarkList)) :
    RunCalculator s calls = calls.map (fun c => Process c.1 c.2) ∧
    RunCalculator s calls = RunCalculator s' calls := by
  refine ⟨runCalculator_eq_map s calls, ?_⟩
  simp only [runCalculator_eq_map]

/-- C10: the claim that every invocation either emits exactly one result
or raises an error with nothing emitted is false on the code: the
invocation on an empty input packet succeeds (status ok) yet emits
nothing. -/
theorem C10_counterexample :
    ¬ ((∃ d, (Process 0 none).emissions = [(0, d)] ∧
          (Process 0 none).status = Status.ok) ∨
       ((Process 0 none).status ≠ Status.ok ∧
          (Process 0 none).emissions = [])) := by
  simp [Process]

/-- C10 (amended): an invocation with a present landmark list emits
exactly one complete result at the input timestamp and succeeds; an
invocation with an empty input packet succeeds and emits nothing; no
error status is ever returned. -/
theorem C10_emission_dichotomy (ts : ℕ) :
    Process ts none = ⟨[], Status.ok⟩ ∧
    (∀ lm : NormalizedLandmarkList,
      Process ts (some lm) = ⟨[(ts, fixedKalidokitData)], Status.ok⟩) ∧
    (∀ input : Option NormalizedLandmarkList,
      (Process ts input).status = Status.ok) := by
  refine ⟨rfl, fun _ => rfl, fun input => ?_⟩
  cases input <;> rfl

end Kalidokit
